import Mathlib

/-!
Verification of the MCP Server Explorer notebook
(`mcp-server-explorer-notebook.ipynb`).

The notebook is glue code: it loads credentials, defines a quiet
`FastAgent` subclass, a tool-descriptor formatter `tool_to_dict`, and
driver cells that pass declarative server configurations to the
`fastmcp` connector. We embed the Python values the notebook builds as
an inductive `PyVal` type, the tool descriptors as structures matching
the MCP `Tool`/`ToolAnnotations` pydantic models, and the constructor of
`NotebookAgent` as an ordered list of steps executed over an agent
state.
-/

namespace MCPExplorer

/-- Python values as they appear in the notebook's dictionaries:
`None`, booleans, strings, lists, and dicts (ordered key/value pairs,
keys unique, insertion order preserved as in Python 3.7+). -/
inductive PyVal : Type where
  | pyNone : PyVal
  | pyBool : Bool → PyVal
  | pyStr : String → PyVal
  | pyList : List PyVal → PyVal
  | pyDict : List (String × PyVal) → PyVal

/-- Python `d.get(k)` on a dict: the value at the first matching key. -/
def dictGet (d : List (String × PyVal)) (k : String) : Option PyVal :=
  (d.find? fun p => p.1 == k).map Prod.snd

/-- Python `d.get(k, default)` on a dict. -/
def pyGetDefault (d : List (String × PyVal)) (k : String) (dflt : PyVal) : PyVal :=
  match dictGet d k with
  | some v => v
  | none => dflt

/-- Python `v.keys()`: defined only when `v` is a dict (calling `.keys()`
on anything else raises, which we model as `none`). -/
def pyDictKeys : PyVal → Option (List String)
  | PyVal.pyDict entries => some (entries.map Prod.fst)
  | _ => none

/-- The MCP `ToolAnnotations` model: all fields optional, defaulting to
`None` (embedded as `Option`). -/
structure ToolAnnotations where
  title : Option String
  readOnlyHint : Option Bool
  destructiveHint : Option Bool

/-- The MCP `Tool` descriptor as consumed by `tool_to_dict`: `name`,
optional `description`, optional `annotations`, and `inputSchema`, a
JSON-schema dict of arbitrary Python values. -/
structure Tool where
  name : String
  description : Option String
  annotations : Option ToolAnnotations
  inputSchema : List (String × PyVal)

/-- The flat record `tool_to_dict` returns (the Python dict with keys
`name`, `title`, `description`, `readOnly`, `destructive`, `inputs`). -/
structure ToolDict where
  name : String
  title : Option String
  description : Option String
  readOnly : Option Bool
  destructive : Option Bool
  inputs : List String

/-- The notebook's formatter:

```python
return {
    "name": tool.name,
    "title": tool.annotations.title if tool.annotations else None,
    "description": tool.description,
    "readOnly": tool.annotations.readOnlyHint if tool.annotations else None,
    "destructive": tool.annotations.destructiveHint if tool.annotations else None,
    "inputs": list(tool.inputSchema.get("properties", {}).keys())
}
```

`tool.inputSchema.get("properties", {})` is `pyGetDefault`; calling
`.keys()` on its result succeeds exactly when that result is a dict
(otherwise Python raises, embedded as `none`). -/
def tool_to_dict (tool : Tool) : Option ToolDict :=
  match pyGetDefault tool.inputSchema "properties" (PyVal.pyDict []) with
  | PyVal.pyDict props =>
      some { name := tool.name
             title := match tool.annotations with
                      | some a => a.title
                      | none => none
             description := tool.description
             readOnly := match tool.annotations with
                         | some a => a.readOnlyHint
                         | none => none
             destructive := match tool.annotations with
                            | some a => a.destructiveHint
                            | none => none
             inputs := props.map Prod.fst }
  | _ => none

/-- A tool object is well formed when the value under `"properties"` in
its input schema, if present, is itself a dict (as every JSON-schema
`properties` member is). -/
def wfTool (t : Tool) : Bool :=
  match pyGetDefault t.inputSchema "properties" (PyVal.pyDict []) with
  | PyVal.pyDict _ => true
  | _ => false

/-- A sample tool whose annotations object is present but carries `None`
for `title` and `readOnlyHint`. -/
def toolPartialAnn : Tool :=
  { name := "browser_navigate"
    description := some "Navigate the browser to a URL"
    annotations := some { title := none, readOnlyHint := none, destructiveHint := some true }
    inputSchema := [("type", PyVal.pyStr "object")] }

/-- A sample tool with no annotations object at all. -/
def toolNoAnn : Tool :=
  { name := "brave_web_search"
    description := some "Perform a web search"
    annotations := none
    inputSchema := [("type", PyVal.pyStr "object")] }

/-- A sample tool whose input schema has no `"properties"` key. -/
def toolNoProps : Tool :=
  { name := "browser_close"
    description := some "Close the browser"
    annotations := none
    inputSchema := [("type", PyVal.pyStr "object")] }

/-- A sample tool whose schema declares the properties `url`, `count`
in that order. -/
def toolUrlCount : Tool :=
  { name := "brave_web_search"
    description := some "Perform a web search"
    annotations := none
    inputSchema :=
      [("type", PyVal.pyStr "object"),
       ("properties", PyVal.pyDict [("url", PyVal.pyDict []), ("count", PyVal.pyDict [])])] }

/-- Claim C1: `tool_to_dict` is total over every well-formed tool
object, and every optional annotation field the source object lacks
comes out as `None` in the returned record. -/
theorem tool_to_dict_total_on_wf (tool : Tool) (h : wfTool tool = true) :
    ∃ d, tool_to_dict tool = some d ∧
      ∀ a, tool.annotations = some a →
        (a.title = none → d.title = none) ∧
        (a.readOnlyHint = none → d.readOnly = none) ∧
        (a.destructiveHint = none → d.destructive = none) := by
  unfold wfTool at h
  unfold tool_to_dict
  generalize pyGetDefault tool.inputSchema "properties" (PyVal.pyDict []) = v at h ⊢
  cases v with
  | pyDict props =>
      refine ⟨_, rfl, ?_⟩
      intro a ha
      refine ⟨?_, ?_, ?_⟩ <;> intro hn <;> simp [ha, hn]
  | pyNone => simp at h
  | pyBool b => simp at h
  | pyStr s => simp at h
  | pyList xs => simp at h

/-- Witness for C1 at a concrete tool whose annotations lack `title`
and `readOnlyHint`. -/
theorem tool_to_dict_total_on_wf_witness :
    wfTool toolPartialAnn = true ∧
    ∃ d, tool_to_dict toolPartialAnn = some d ∧
      ∀ a, toolPartialAnn.annotations = some a →
        (a.title = none → d.title = none) ∧
        (a.readOnlyHint = none → d.readOnly = none) ∧
        (a.destructiveHint = none → d.destructive = none) :=
  ⟨rfl, tool_to_dict_total_on_wf toolPartialAnn rfl⟩

/-- Claim C5: when the annotations field is missing, the returned
record has `None` for `title`, `readOnly`, and `destructive`. -/
theorem tool_to_dict_missing_annotations (tool : Tool)
    (h1 : tool.annotations = none) (h2 : wfTool tool = true) :
    ∃ d, tool_to_dict tool = some d ∧
      d.title = none ∧ d.readOnly = none ∧ d.destructive = none := by
  unfold wfTool at h2
  unfold tool_to_dict
  generalize pyGetDefault tool.inputSchema "properties" (PyVal.pyDict []) = v at h2 ⊢
  cases v with
  | pyDict props => exact ⟨_, rfl, by simp [h1], by simp [h1], by simp [h1]⟩
  | pyNone => simp at h2
  | pyBool b => simp at h2
  | pyStr s => simp at h2
  | pyList xs => simp at h2

/-- Witness for C5 at a concrete tool with no annotations object. -/
theorem tool_to_dict_missing_annotations_witness :
    toolNoAnn.annotations = none ∧ wfTool toolNoAnn = true ∧
    ∃ d, tool_to_dict toolNoAnn = some d ∧
      d.title = none ∧ d.readOnly = none ∧ d.destructive = none :=
  ⟨rfl, rfl, tool_to_dict_missing_annotations toolNoAnn rfl rfl⟩

/-- Claim C6: when the input schema has no `"properties"` key, the
`inputs` field of the returned record is the empty sequence. -/
theorem tool_to_dict_no_properties (tool : Tool)
    (h : dictGet tool.inputSchema "properties" = none) :
    ∃ d, tool_to_dict tool = some d ∧ d.inputs = [] := by
  unfold tool_to_dict pyGetDefault
  rw [h]
  exact ⟨_, rfl, rfl⟩

/-- Witness for C6 at a concrete tool whose schema lacks `properties`. -/
theorem tool_to_dict_no_properties_witness :
    dictGet toolNoProps.inputSchema "properties" = none ∧
    ∃ d, tool_to_dict toolNoProps = some d ∧ d.inputs = [] :=
  ⟨rfl, tool_to_dict_no_properties toolNoProps rfl⟩

/-- Claim C7: when the input schema has a `"properties"` dict, the
`inputs` field is exactly that dict's keys in declared order. -/
theorem tool_to_dict_inputs_declared_order (tool : Tool)
    (props : List (String × PyVal))
    (h : dictGet tool.inputSchema "properties" = some (PyVal.pyDict props)) :
    ∃ d, tool_to_dict tool = some d ∧ d.inputs = props.map Prod.fst := by
  unfold tool_to_dict pyGetDefault
  rw [h]
  exact ⟨_, rfl, rfl⟩

/-- Witness for C7: `properties = {"url": ..., "count": ...}` yields
`inputs = ["url", "count"]`. -/
theorem tool_to_dict_inputs_declared_order_witness :
    dictGet toolUrlCount.inputSchema "properties" =
      some (PyVal.pyDict [("url", PyVal.pyDict []), ("count", PyVal.pyDict [])]) ∧
    ∃ d, tool_to_dict toolUrlCount = some d ∧ d.inputs = ["url", "count"] :=
  ⟨rfl, tool_to_dict_inputs_declared_order toolUrlCount
    [("url", PyVal.pyDict []), ("count", PyVal.pyDict [])] rfl⟩

/-- Attribute assignment on a Python object modelled as an attribute
list: replace an existing binding or append a new one. -/
def setAttr (attrs : List (String × PyVal)) (k : String) (v : PyVal) :
    List (String × PyVal) :=
  if attrs.any fun p => p.1 == k then
    attrs.map fun p => if p.1 == k then (k, v) else p
  else attrs ++ [(k, v)]

/-- Attribute lookup on a Python object modelled as an attribute list. -/
def getAttr (attrs : List (String × PyVal)) (k : String) : Option PyVal :=
  (attrs.find? fun p => p.1 == k).map Prod.snd

/-- The observable state of a `FastAgent` instance during construction:
its name and the attribute list of its `args` object. -/
structure AgentState where
  agentName : Option String
  args : List (String × PyVal)

/-- The state before `NotebookAgent.__init__` begins. -/
def initState : AgentState := { agentName := none, args := [] }

/-- One step of the `NotebookAgent.__init__` body. `baseInit` is the
base-type constructor `FastAgent.__init__` (it stores the name and the
argparse result it produces, whatever that is, into `self.args`);
`freshNamespace` is `self.args = argparse.Namespace()`; `setQuiet` is
`self.args.quiet = b`. -/
inductive InitStep : Type where
  | baseInit : String → List (String × PyVal) → InitStep
  | freshNamespace : InitStep
  | setQuiet : Bool → InitStep

/-- Effect of one constructor step on the agent state. -/
def applyStep (s : AgentState) : InitStep → AgentState
  | InitStep.baseInit n parsed => { s with agentName := some n, args := parsed }
  | InitStep.freshNamespace => { s with args := [] }
  | InitStep.setQuiet b => { s with args := setAttr s.args "quiet" (PyVal.pyBool b) }

/-- Execute a list of constructor steps in order. -/
def execSteps (s : AgentState) : List InitStep → AgentState
  | [] => s
  | step :: rest => execSteps (applyStep s step) rest

/-- The body of `NotebookAgent.__init__`, in source order:

```python
super().__init__("NotebookAgent")
self.args = argparse.Namespace()
self.args.quiet = True
```

`baseParsedArgs` stands for whatever attribute set the base constructor
stores into `self.args`. -/
def notebookAgentInit (baseParsedArgs : List (String × PyVal)) : List InitStep :=
  [InitStep.baseInit "NotebookAgent" baseParsedArgs,
   InitStep.freshNamespace,
   InitStep.setQuiet true]

/-- Whether the quiet flag reads as `True` in a given agent state. -/
def quietTrue (s : AgentState) : Bool :=
  match getAttr s.args "quiet" with
  | some (PyVal.pyBool b) => b
  | _ => false

/-- Whether, along a step list executed from state `s`, every base-type
constructor step runs only when the quiet flag is already `True`. -/
def baseStepsAfterQuiet : AgentState → List InitStep → Bool
  | _, [] => true
  | s, step :: rest =>
      (match step with
       | InitStep.baseInit _ _ => quietTrue s
       | _ => true) && baseStepsAfterQuiet (applyStep s step) rest

/-- Claim C2, counterexample: in the constructor trace of
`NotebookAgent` (here with the base constructor storing no attributes),
the base-type constructor step runs while the quiet flag is not yet
true, because `super().__init__` is the first statement and
`self.args.quiet = True` the last. -/
theorem notebookAgent_base_runs_before_quiet :
    baseStepsAfterQuiet initState (notebookAgentInit []) = false := rfl

/-- Claim C2, amended: the base constructor runs first and the quiet
flag is assigned afterwards, still inside the constructor, so the flag
is true once construction completes (but base-type constructor behavior
does execute before the flag is set). -/
theorem notebookAgent_quiet_after_base (baseParsedArgs : List (String × PyVal)) :
    List.head? (notebookAgentInit baseParsedArgs) =
      some (InitStep.baseInit "NotebookAgent" baseParsedArgs) ∧
    quietTrue (execSteps initState (notebookAgentInit baseParsedArgs)) = true :=
  ⟨rfl, rfl⟩

/-- Claim C4: immediately after construction, `self.args.quiet` is
`True`, whatever the base constructor parsed. -/
theorem notebookAgent_quiet_flag_set (baseParsedArgs : List (String × PyVal)) :
    getAttr (execSteps initState (notebookAgentInit baseParsedArgs)).args "quiet" =
      some (PyVal.pyBool true) := rfl

/-- Claim C10: the constructor replaces `self.args` wholesale — after
construction it is a fresh attribute list whose only attribute is
`quiet`, set to `True`; everything the base constructor stored there is
discarded. -/
theorem notebookAgent_args_replaced (baseParsedArgs : List (String × PyVal)) :
    (execSteps initState (notebookAgentInit baseParsedArgs)).args =
      [("quiet", PyVal.pyBool true)] := rfl

/-- `os.getenv` result embedded as a Python value: a string when the
variable is set, `None` otherwise. -/
def pyOfEnvLookup : Option String → PyVal
  | some s => PyVal.pyStr s
  | none => PyVal.pyNone

/-- The configuration the playwright tool-listing cell builds:

```python
config = {"mcpServers": {"playwright":
  {"command": "npx", "args": ["-y", "@playwright/mcp@latest"]}}}
``` -/
def config_playwright_list : PyVal :=
  PyVal.pyDict
    [("mcpServers", PyVal.pyDict
      [("playwright", PyVal.pyDict
        [("command", PyVal.pyStr "npx"),
         ("args", PyVal.pyList [PyVal.pyStr "-y", PyVal.pyStr "@playwright/mcp@latest"])])])]

/-- The configuration the playwright navigation cell builds (the same
dict; the trailing comma in the source is Python surface only). -/
def config_playwright_nav : PyVal :=
  PyVal.pyDict
    [("mcpServers", PyVal.pyDict
      [("playwright", PyVal.pyDict
        [("command", PyVal.pyStr "npx"),
         ("args", PyVal.pyList [PyVal.pyStr "-y", PyVal.pyStr "@playwright/mcp@latest"])])])]

/-- The configuration the brave_websearch cell builds, parameterised by
the value of `os.getenv("BRAVE_API_KEY")`:

```python
config = {"mcpServers": {"brave_websearch":
  {"command": "npx", "args": ["-y", "@modelcontextprotocol/server-brave-search"],
   "env": {"BRAVE_API_KEY": os.getenv("BRAVE_API_KEY")}}}}
``` -/
def config_brave (braveApiKey : Option String) : PyVal :=
  PyVal.pyDict
    [("mcpServers", PyVal.pyDict
      [("brave_websearch", PyVal.pyDict
        [("command", PyVal.pyStr "npx"),
         ("args", PyVal.pyList
           [PyVal.pyStr "-y", PyVal.pyStr "@modelcontextprotocol/server-brave-search"]),
         ("env", PyVal.pyDict [("BRAVE_API_KEY", pyOfEnvLookup braveApiKey)])])])]

/-- This follows the spec's words, for comparison with the source
configurations: one server specification is a dict with a `command`
string, an `args` list of strings, and an `env` dict of string values. -/
def specServerSpecShape : PyVal → Bool
  | PyVal.pyDict fields =>
      (match dictGet fields "command" with
       | some (PyVal.pyStr _) => true
       | _ => false) &&
      (match dictGet fields "args" with
       | some (PyVal.pyList xs) =>
           xs.all fun x => match x with
             | PyVal.pyStr _ => true
             | _ => false
       | _ => false) &&
      (match dictGet fields "env" with
       | some (PyVal.pyDict es) =>
           es.all fun e => match e.2 with
             | PyVal.pyStr _ => true
             | _ => false
       | _ => false)
  | _ => false

/-- This follows the spec's words: the configuration object has shape
`{"<serverName>": {"command": ..., "args": ..., "env": ...}}` — every
top-level key maps directly to a server specification. -/
def specShapeTopLevelServers : PyVal → Bool
  | PyVal.pyDict entries =>
      !entries.isEmpty && entries.all fun e => specServerSpecShape e.2
  | _ => false

/-- A server entry as the source cells actually write it: a `command`
string, an `args` list of strings, and optionally an `env` dict. -/
def serverEntryShape : PyVal → Bool
  | PyVal.pyDict fields =>
      (match dictGet fields "command" with
       | some (PyVal.pyStr _) => true
       | _ => false) &&
      (match dictGet fields "args" with
       | some (PyVal.pyList xs) =>
           xs.all fun x => match x with
             | PyVal.pyStr _ => true
             | _ => false
       | _ => false) &&
      (match dictGet fields "env" with
       | none => true
       | some (PyVal.pyDict _) => true
       | some _ => false)
  | _ => false

/-- The shape the source cells actually build: a single top-level key
`"mcpServers"` whose value maps server names to server entries. -/
def mcpServersShape : PyVal → Bool
  | PyVal.pyDict [(k, PyVal.pyDict servers)] =>
      k == "mcpServers" && !servers.isEmpty &&
        (servers.all fun e => serverEntryShape e.2)
  | _ => false

/-- Claim C3, counterexample: the playwright cell's configuration does
not have the spec's claimed shape — its only top-level key is
`"mcpServers"`, whose value is not a server specification (no
`command`/`args`/`env` fields at top level), so the top-level keys are
not the server names. -/
theorem config_playwright_not_spec_shape :
    specShapeTopLevelServers config_playwright_list = false := rfl

/-- Claim C3, amended: every configuration the driver cells pass to the
connector has the shape `{"mcpServers": {"<serverName>": {"command":
string, "args": [string...]}}}`, with the server names one level down
under the `"mcpServers"` key and an optional `"env"` dict (present only
in the brave_websearch cell, whose value may be `None` when the
environment variable is unset). -/
theorem configs_have_mcpServers_shape (braveApiKey : Option String) :
    mcpServersShape config_playwright_list = true ∧
    mcpServersShape config_playwright_nav = true ∧
    mcpServersShape (config_brave braveApiKey) = true :=
  ⟨rfl, rfl, rfl⟩

/-- Lookup in the process environment, modelled as an ordered list of
`KEY=VALUE` bindings with unique keys (first binding wins). -/
def envGet (env : List (String × String)) (k : String) : Option String :=
  (env.find? fun p => p.1 == k).map Prod.snd

/-- Modelled from the spec: the line format `python-dotenv` accepts —
blank lines and `#` comment lines are ignored, every other line is
split at its first `=` into a key and a value. The implementation of
`load_dotenv` is the external `python-dotenv` package; only its call
site is in the notebook. -/
def parseEnvLine (line : String) : Option (String × String) :=
  let t := line.trim
  if t.isEmpty then none
  else if t.startsWith "#" then none
  else
    match t.splitOn "=" with
    | [] => none
    | [_] => none
    | k :: rest => some (k.trim, (String.intercalate "=" rest).trim)

/-- Modelled from the spec: `load_dotenv()` (external `python-dotenv`
package, called at the top of the notebook) reads the file's lines in
order and injects each parsed `KEY=VALUE` pair into the process
environment only if the key is not already present; existing
variables are never overridden. -/
def load_dotenv : List String → List (String × String) → List (String × String)
  | [], env => env
  | line :: rest, env =>
      load_dotenv rest
        (match parseEnvLine line with
         | some (k, v) => if (envGet env k).isSome then env else env ++ [(k, v)]
         | none => env)

/-- A key already bound in an environment list keeps its value when
more bindings are appended on the right. -/
theorem envGet_append_of_some (env extra : List (String × String))
    (k v : String) (h : envGet env k = some v) :
    envGet (env ++ extra) k = some v := by
  unfold envGet at h ⊢
  rw [List.find?_append]
  cases hf : env.find? fun p => p.1 == k with
  | none => rw [hf] at h; simp at h
  | some p => rw [hf] at h; simp [Option.or, h, hf]

/-- Claim C8: loading the environment file is additive — every variable
set before the load keeps its value afterwards, even when the file
redefines it. -/
theorem load_dotenv_preserves_existing (lines : List String)
    (env : List (String × String)) (k v : String)
    (h : envGet env k = some v) :
    envGet (load_dotenv lines env) k = some v := by
  induction lines generalizing env with
  | nil => simpa [load_dotenv] using h
  | cons line rest ih =>
      simp only [load_dotenv]
      apply ih
      cases hp : parseEnvLine line with
      | none => simpa [hp] using h
      | some kv =>
          obtain ⟨k1, v1⟩ := kv
          show envGet (if (envGet env k1).isSome = true then env
            else env ++ [(k1, v1)]) k = some v
          by_cases hs : (envGet env k1).isSome = true
          · simpa [hs] using h
          · rw [if_neg hs]
            exact envGet_append_of_some env [(k1, v1)] k v h

/-- Witness for C8: a file line redefining `BRAVE_API_KEY` does not
override the pre-existing value. -/
theorem load_dotenv_preserves_existing_witness :
    envGet [("BRAVE_API_KEY", "old")] "BRAVE_API_KEY" = some "old" ∧
    envGet (load_dotenv ["BRAVE_API_KEY=new"] [("BRAVE_API_KEY", "old")])
      "BRAVE_API_KEY" = some "old" :=
  ⟨by decide, load_dotenv_preserves_existing ["BRAVE_API_KEY=new"]
    [("BRAVE_API_KEY", "old")] "BRAVE_API_KEY" "old" (by decide)⟩

/-- Outcome of connecting to a tool server: either a value or a
connection/process-spawn error carrying a message. -/
inductive ConnResult (α : Type) : Type where
  | ok : α → ConnResult α
  | spawnError : String → ConnResult α

/-- Modelled from the spec: `client.list_tools()` (external `fastmcp`
library; only its call sites are in the notebook) opens a scoped
connection per the configuration and returns the remote catalog, or
fails with a connection/spawn error when the launch command is
unreachable; nothing is caught or retried locally. -/
def listTools (reachable : Bool) (catalog : List Tool) (errMsg : String) :
    ConnResult (List Tool) :=
  if reachable then ConnResult.ok catalog else ConnResult.spawnError errMsg

/-- The body of the tool-listing cells (`run` in the playwright cell,
`run_list` in the brave_websearch cell): feed every tool returned by a
successful `list_tools` through `tool_to_dict`. The second component
counts how many times the formatter is invoked; a failure propagates
unchanged and the count stays zero. -/
def run_list_cell (fetched : ConnResult (List Tool)) :
    ConnResult (List (Option ToolDict)) × Nat :=
  match fetched with
  | ConnResult.ok ts => (ConnResult.ok (ts.map tool_to_dict), ts.length)
  | ConnResult.spawnError e => (ConnResult.spawnError e, 0)

/-- Claim C9: when the launch command is unreachable, listing tools
fails with the spawn error, the error propagates to the invoking cell,
and `tool_to_dict` is invoked zero times. -/
theorem list_cell_spawn_error_skips_formatter (catalog : List Tool) (errMsg : String) :
    run_list_cell (listTools false catalog errMsg) =
      (ConnResult.spawnError errMsg, 0) := rfl

end MCPExplorer
